import Mathlib

/-!
Shallow embedding of the VSmileEmu-Android native bridge
(`jni_bridge.cpp`, `android_emulator.cpp` / `android_emulator.h`).

The veesem emulator core (`VSmile`) is external to this repository; it is
modelled from the spec as an opaque state whose per-frame picture and audio
outputs are supplied by an oracle fixed at construction.  Machine integers
are modelled as `Nat` holding the 16-bit patterns the code manipulates;
byte buffers that the code only ever reads and writes as 16-bit words (the
framebuffer, the picture) are modelled as lists of those words, so a byte
count is twice a list length.
-/

namespace VSmileEmu

/-- Modelled from the spec: byte size of the external core's fixed system
ROM array, `sizeof(VSmile::SysRomType)` (2 MiB).  The core itself is not in
the repository; the spec fixes this size as the exact-match requirement. -/
def SYSROM_BYTES : Nat := 0x200000

/-- Modelled from the spec: byte size of the external core's cartridge ROM
slot, `sizeof(VSmile::CartRomType)` (8 MiB); the maximum cartridge size. -/
def CART_BYTES : Nat := 0x800000

/-- Video timing selection (the external `VideoTiming` enum). -/
inductive VideoTiming where
  | PAL
  | NTSC
deriving DecidableEq

/-- Cartridge type constant (`VSmile::CartType`); the bridge always passes
`STANDARD`. -/
inductive CartType where
  | STANDARD
deriving DecidableEq

/-- Modelled from the spec: the external core's opaque frame outputs.  The
picture and audio available after `n` completed frames are arbitrary
streams fixed at construction; the bridge treats them as opaque data. -/
structure CoreOracle where
  pictureAt : Nat → List Nat
  audioAt : Nat → List Nat

/-- Joystick input record (`VSmile::JoyInput` / `VSmileJoy::JoyInput`):
eight buttons and two axes. -/
structure JoyInput where
  enter : Bool
  help : Bool
  back : Bool
  abc : Bool
  red : Bool
  yellow : Bool
  blue : Bool
  green : Bool
  x : Int
  y : Int

/-- Modelled from the spec: the external veesem core instance.  Construction
stores the ROM images and configuration; `Reset` forces the defined
power-on CPU state (`powerOnReset`); `RunFrame` advances one discrete
frame; picture and audio are read from the oracle. -/
structure VSmile where
  sysRom : Option (Nat → Nat)
  cartRom : Nat → Nat
  cartType : CartType
  nvram : Option Unit
  regionCode : Nat
  showLogo : Bool
  timing : VideoTiming
  oracle : CoreOracle
  joy : JoyInput
  onButton : Bool
  framesRun : Nat
  powerOnReset : Bool

/-- Modelled from the spec: the external core's constructor
`VSmile(sysrom, cartrom, cartType, nvram, region, showLogo, timing)`.
The CPU state is defined only after `Reset`. -/
def VSmile.construct (sysRom : Option (Nat → Nat)) (cartRom : Nat → Nat)
    (cartType : CartType) (nvram : Option Unit) (regionCode : Nat)
    (showLogo : Bool) (timing : VideoTiming) (oracle : CoreOracle) : VSmile :=
  { sysRom := sysRom, cartRom := cartRom, cartType := cartType,
    nvram := nvram, regionCode := regionCode, showLogo := showLogo,
    timing := timing, oracle := oracle,
    joy := { enter := false, help := false, back := false, abc := false,
             red := false, yellow := false, blue := false, green := false,
             x := 0, y := 0 },
    onButton := false, framesRun := 0, powerOnReset := false }

/-- Modelled from the spec: `VSmile::RunFrame` advances one discrete step. -/
def VSmile.RunFrame (v : VSmile) : VSmile :=
  { v with framesRun := v.framesRun + 1 }

/-- Modelled from the spec: `VSmile::Reset` forces the power-on state,
preserving the loaded ROM images. -/
def VSmile.Reset (v : VSmile) : VSmile :=
  { v with framesRun := 0, powerOnReset := true }

/-- Modelled from the spec: `VSmile::GetPicture`. -/
def VSmile.GetPicture (v : VSmile) : List Nat :=
  v.oracle.pictureAt v.framesRun

/-- Modelled from the spec: `VSmile::GetAudio` (unsigned 16-bit samples,
interleaved stereo). -/
def VSmile.GetAudio (v : VSmile) : List Nat :=
  v.oracle.audioAt v.framesRun

/-- Modelled from the spec: `VSmile::UpdateJoystick`. -/
def VSmile.UpdateJoystick (v : VSmile) (j : JoyInput) : VSmile :=
  { v with joy := j }

/-- Modelled from the spec: `VSmile::UpdateOnButton`. -/
def VSmile.UpdateOnButton (v : VSmile) (b : Bool) : VSmile :=
  { v with onButton := b }

/-- Per-pixel step of `AndroidEmulator::convertFramebufferRGB555toRGB565`:
extract the 5-bit channels of a packed RGB555 word, widen green to 6 bits
by duplicating its most-significant bit, repack as RGB565. -/
def convert555 (c : Nat) : Nat :=
  let r := (c >>> 10) &&& 0x1F
  let g := (c >>> 5) &&& 0x1F
  let b := c &&& 0x1F
  let g6 := (g <<< 1) ||| (g >>> 4)
  (r <<< 11) ||| (g6 <<< 5) ||| b

/-- Buffer-level `AndroidEmulator::convertFramebufferRGB555toRGB565`: the
loop writes `dst16[i]` for every `i < pixelCount`, reading `src16[i]`. -/
def convertFramebufferRGB555toRGB565 (src : List Nat) (pixelCount : Nat) :
    List Nat :=
  (List.range pixelCount).map fun i => convert555 (src.getD i 0)

/-- Per-sample audio conversion in `nativeGetAudioSamples`: flip the sign
bit, `sample XOR 0x8000`. -/
def audioConvert (u : Nat) : Nat := u ^^^ 0x8000

/-- Reinterpretation of a 16-bit pattern as a signed `int16` value (the
`static_cast` applied to each converted sample in `nativeGetAudioSamples`). -/
def toInt16 (v : Nat) : Int :=
  if v < 0x8000 then (v : Int) else (v : Int) - 0x10000

/-- Dummy system ROM built by `nativeInit` when no system ROM is supplied:
a zero-filled buffer where byte `0x31` is written at index `i + 1` for
`i = 0xfffc0, 0xfffc0 + 2, ...` while `i < 0xfffdc` (14 iterations), the
minimal boot stub. -/
def dummyBios : Nat → Nat :=
  (List.range 14).foldl
    (fun f k => fun j => if j = 0xfffc0 + 2 * k + 1 then 0x31 else f j)
    (fun _ => 0)

/-- Global state of the JNI bridge: `g_vsmile` together with the static
`frame_counter` local to `nativeRunFrame`. -/
structure JniState where
  gVsmile : Option VSmile
  frameCounter : Nat

/-- System ROM preparation and validation in `nativeInit`: a supplied image
must match the expected size exactly, else the call fails (`none`); with no
image supplied the dummy boot stub is used.  The destination buffer is
value-initialised (zero) and the supplied bytes are copied over it. -/
def jniSysData (sysrom : Option (List Nat)) : Option (Nat → Nat) :=
  match sysrom with
  | some b =>
    if b.length = SYSROM_BYTES then
      some fun i => if i < b.length then b.getD i 0 else 0
    else none
  | none => some dummyBios

/-- Cartridge ROM preparation in `nativeInit`: zero-filled slot with the
supplied bytes copied in (zero-padded to the slot size). -/
def jniCartData (cartrom : List Nat) : Nat → Nat :=
  fun i => if i < cartrom.length then cartrom.getD i 0 else 0

/-- The JNI entry point `nativeInit` (function
`Java_com_vsmileemu_android_core_EmulatorCore_nativeInit`).  `coreOk`
stands for whether the external core's construction succeeds; a
construction exception is caught and turned into `false` with the global
state untouched.  On success the new instance replaces `g_vsmile` and is
reset before returning. -/
def nativeInit (s : JniState) (sysrom : Option (List Nat)) (cartrom : List Nat)
    (usePAL : Bool) (oracle : CoreOracle) (coreOk : Bool) : Bool × JniState :=
  match jniSysData sysrom with
  | none => (false, s)
  | some sysData =>
    if cartrom.length = 0 ∨ CART_BYTES < cartrom.length then (false, s)
    else if coreOk then
      let timing := if usePAL then VideoTiming.PAL else VideoTiming.NTSC
      let inst := VSmile.construct (some sysData) (jniCartData cartrom)
        CartType.STANDARD none 0xe true timing oracle
      (true, { s with gVsmile := some inst.Reset })
    else (false, s)

/-- The JNI entry point `nativeRunFrame`: returns immediately when
`g_vsmile` is null; otherwise steps the core once and bumps the static
frame counter. -/
def nativeRunFrame (s : JniState) : JniState :=
  match s.gVsmile with
  | none => s
  | some v =>
    { s with gVsmile := some v.RunFrame, frameCounter := s.frameCounter + 1 }

/-- The JNI entry point `nativeGetFrameBuffer`: null when uninitialised,
else a copy of the core's current picture. -/
def nativeGetFrameBuffer (s : JniState) : Option (List Nat) :=
  match s.gVsmile with
  | none => none
  | some v => some v.GetPicture

/-- The JNI entry point `nativeGetAudioSamples`: null when uninitialised,
else the core's audio with every sample converted by `XOR 0x8000`,
preserving order. -/
def nativeGetAudioSamples (s : JniState) : Option (List Nat) :=
  match s.gVsmile with
  | none => none
  | some v => some (v.GetAudio.map audioConvert)

/-- The JNI entry point `nativeSendInput`: no-op when uninitialised, else
forwards the joystick state field-for-field to the core. -/
def nativeSendInput (s : JniState) (j : JoyInput) : JniState :=
  match s.gVsmile with
  | none => s
  | some v => { s with gVsmile := some (v.UpdateJoystick j) }

/-- The JNI entry point `nativePressOnButton`. -/
def nativePressOnButton (s : JniState) (pressed : Bool) : JniState :=
  match s.gVsmile with
  | none => s
  | some v => { s with gVsmile := some (v.UpdateOnButton pressed) }

/-- The JNI entry point `nativeDestroy`: releases the global instance. -/
def nativeDestroy (s : JniState) : JniState :=
  { s with gVsmile := none }

/-- Controller input record (`ControllerInput` in android_emulator.h). -/
structure ControllerInput where
  enter : Bool
  help : Bool
  back : Bool
  abc : Bool
  red : Bool
  yellow : Bool
  blue : Bool
  green : Bool
  joystickX : Int
  joystickY : Int

/-- State of the `AndroidEmulator` wrapper class.  The framebuffer is the
byte vector `framebuffer_` viewed as 16-bit words (the only way the code
accesses it); `currentFPS` models the `float` field over exact rationals. -/
structure AndroidEmulator where
  emulator : Option VSmile
  framebuffer : List Nat
  audioBuffer : List Nat
  paused : Bool
  lastFrameTime : Int
  currentFPS : ℚ
  frameCount : Nat
  fpsUpdateTime : Int

/-- Constructor `AndroidEmulator::AndroidEmulator()`: pre-allocates the
320x240x2-byte framebuffer zero-filled (modelled as 76800 zero words), an
empty audio buffer, unpaused, FPS state zeroed, both time stamps set to
the current time. -/
def AndroidEmulator.construct (now : Int) : AndroidEmulator :=
  { emulator := none,
    framebuffer := List.replicate (320 * 240) 0,
    audioBuffer := [],
    paused := false,
    lastFrameTime := now,
    currentFPS := 0,
    frameCount := 0,
    fpsUpdateTime := now }

/-- Method `AndroidEmulator::initialize`.  `coreOk` models whether the
external core's construction succeeds.  Unlike `nativeInit`, this method
does not bound-check the cartridge size (oversized data is truncated by
the `min` in the copy) and performs no reset after construction. -/
def AndroidEmulator.initializeEmulator (s : AndroidEmulator)
    (biosData : Option (List Nat)) (biosSize : Nat)
    (romData : Option (List Nat)) (romSize : Nat)
    (timing : VideoTiming) (oracle : CoreOracle) (coreOk : Bool) :
    Bool × AndroidEmulator :=
  match romData with
  | none => (false, s)
  | some rom =>
    if romSize = 0 then (false, s)
    else if coreOk then
      let sysRom : Option (Nat → Nat) :=
        match biosData with
        | some bios =>
          if 0 < biosSize then
            some fun i =>
              if i < min biosSize SYSROM_BYTES then bios.getD i 0 else 0
          else none
        | none => none
      let cartRom : Nat → Nat :=
        fun i => if i < min romSize CART_BYTES then rom.getD i 0 else 0
      (true, { s with emulator := some (VSmile.construct sysRom cartRom
        CartType.STANDARD none 0xe true timing oracle) })
    else (false, s)

/-- Method `AndroidEmulator::updateFPS`: increment the frame counter; once
at least 1000 ms of wall-clock time have elapsed since the last update,
recompute `fps = frameCount * 1000 / elapsed` and reset counter and
timestamp; otherwise leave the published value untouched. -/
def AndroidEmulator.updateFPS (s : AndroidEmulator) (now : Int) :
    AndroidEmulator :=
  let fc := s.frameCount + 1
  let elapsed : Int := now - s.fpsUpdateTime
  if 1000 ≤ elapsed then
    { s with currentFPS := (fc : ℚ) * 1000 / (elapsed : ℚ),
             frameCount := 0, fpsUpdateTime := now }
  else
    { s with frameCount := fc }

/-- Method `AndroidEmulator::runFrame`: no-op when paused or when no core
instance exists; otherwise step the core once, convert its full 320x240
picture into the framebuffer, copy the audio, and update the FPS state. -/
def AndroidEmulator.runFrame (s : AndroidEmulator) (now : Int) :
    AndroidEmulator :=
  if s.paused then s
  else
    match s.emulator with
    | none => s
    | some v =>
      let v2 := v.RunFrame
      let fb := convertFramebufferRGB555toRGB565 v2.GetPicture (320 * 240)
      AndroidEmulator.updateFPS
        { s with emulator := some v2, framebuffer := fb,
                 audioBuffer := v2.GetAudio }
        now

/-- Method `AndroidEmulator::updateInput`: no-op when no core instance
exists, else a field-for-field copy into the core's joystick record. -/
def AndroidEmulator.updateInput (s : AndroidEmulator) (i : ControllerInput) :
    AndroidEmulator :=
  match s.emulator with
  | none => s
  | some v =>
    { s with emulator := some (v.UpdateJoystick
        { enter := i.enter, help := i.help, back := i.back, abc := i.abc,
          red := i.red, yellow := i.yellow, blue := i.blue, green := i.green,
          x := i.joystickX, y := i.joystickY }) }

/-- Method `AndroidEmulator::getFramebuffer`. -/
def AndroidEmulator.getFramebuffer (s : AndroidEmulator) : List Nat :=
  s.framebuffer

/-- Method `AndroidEmulator::getFramebufferSize`: byte size of the
framebuffer (two bytes per stored 16-bit word). -/
def AndroidEmulator.getFramebufferSize (s : AndroidEmulator) : Nat :=
  2 * s.framebuffer.length

/-- Method `AndroidEmulator::getAudioSamples`. -/
def AndroidEmulator.getAudioSamples (s : AndroidEmulator) : List Nat :=
  s.audioBuffer

/-- Method `AndroidEmulator::getAudioSampleCount`. -/
def AndroidEmulator.getAudioSampleCount (s : AndroidEmulator) : Nat :=
  s.audioBuffer.length

/-- Method `AndroidEmulator::pause`: a pure flag flip. -/
def AndroidEmulator.pause (s : AndroidEmulator) : AndroidEmulator :=
  { s with paused := true }

/-- Method `AndroidEmulator::resume`. -/
def AndroidEmulator.resume (s : AndroidEmulator) : AndroidEmulator :=
  { s with paused := false }

/-- Method `AndroidEmulator::reset`: no-op when no core instance exists,
else forwards to the core's `Reset`. -/
def AndroidEmulator.reset (s : AndroidEmulator) : AndroidEmulator :=
  match s.emulator with
  | none => s
  | some v => { s with emulator := some v.Reset }

/-- Method `AndroidEmulator::isPaused`. -/
def AndroidEmulator.isPaused (s : AndroidEmulator) : Bool := s.paused

/-- Method `AndroidEmulator::getFPS`: returns the stored value unchanged. -/
def AndroidEmulator.getFPS (s : AndroidEmulator) : ℚ := s.currentFPS

/-- Operations on an `AndroidEmulator` instance, for stating invariants
over arbitrary call sequences. -/
inductive AEOp where
  | init (bios : Option (List Nat)) (biosSize : Nat) (rom : Option (List Nat))
      (romSize : Nat) (t : VideoTiming) (oracle : CoreOracle) (ok : Bool)
  | run (now : Int)
  | input (i : ControllerInput)
  | pauseOp
  | resumeOp
  | resetOp

/-- Whether an operation is an `initialize` call. -/
def AEOp.isInit : AEOp → Bool
  | .init _ _ _ _ _ _ _ => true
  | _ => false

/-- Whether an operation is a `runFrame` call. -/
def AEOp.isRun : AEOp → Bool
  | .run _ => true
  | _ => false

/-- One step of the `AndroidEmulator` call interface. -/
def AEstep (s : AndroidEmulator) : AEOp → AndroidEmulator
  | .init b bs r rs t o ok => (AndroidEmulator.initializeEmulator s b bs r rs t o ok).2
  | .run now => AndroidEmulator.runFrame s now
  | .input i => AndroidEmulator.updateInput s i
  | .pauseOp => AndroidEmulator.pause s
  | .resumeOp => AndroidEmulator.resume s
  | .resetOp => AndroidEmulator.reset s

/-- Concrete oracle used in witness statements. -/
def oracleEx : CoreOracle :=
  { pictureAt := fun _ => [], audioAt := fun _ => [] }

/-- Concrete uninitialised JNI state used in witness statements. -/
def jniEx : JniState := { gVsmile := none, frameCounter := 0 }

/-- Concrete core instance used in witness statements. -/
def vEx : VSmile :=
  VSmile.construct none (fun _ => 0) CartType.STANDARD none 0xe true
    VideoTiming.NTSC oracleEx

/-- Concrete freshly constructed wrapper state used in witness statements. -/
def aeEx : AndroidEmulator := AndroidEmulator.construct 0

/-- Concrete joystick record used in witness statements. -/
def joyEx : JoyInput :=
  { enter := false, help := false, back := false, abc := false,
    red := false, yellow := false, blue := false, green := false,
    x := 0, y := 0 }

/-- Concrete controller record used in witness statements. -/
def ctrlEx : ControllerInput :=
  { enter := false, help := false, back := false, abc := false,
    red := false, yellow := false, blue := false, green := false,
    joystickX := 0, joystickY := 0 }

/-- Concrete wrapper state holding a core instance, used in witness
statements. -/
def aeRunEx : AndroidEmulator := { aeEx with emulator := some vEx }

/-- Concrete JNI state holding a core instance, used in witness
statements. -/
def jniVEx : JniState := { gVsmile := some vEx, frameCounter := 0 }

theorem aux_and_shiftRight (a m k : Nat) :
    (a &&& m) >>> k = (a >>> k) &&& (m >>> k) := by
  apply Nat.eq_of_testBit_eq
  intro j
  simp [Nat.testBit_shiftRight, Nat.testBit_and]

theorem aux_convert555_mask (c : Nat) :
    convert555 (c &&& 0x7FFF) = convert555 c := by
  have e1 : (0x7FFF : Nat) >>> 10 &&& 0x1F = 0x1F := by decide
  have e2 : (0x7FFF : Nat) >>> 5 &&& 0x1F = 0x1F := by decide
  have e3 : (0x7FFF : Nat) &&& 0x1F = 0x1F := by decide
  have hr : ((c &&& 0x7FFF) >>> 10) &&& 0x1F = (c >>> 10) &&& 0x1F := by
    rw [aux_and_shiftRight, Nat.and_assoc, e1]
  have hg : ((c &&& 0x7FFF) >>> 5) &&& 0x1F = (c >>> 5) &&& 0x1F := by
    rw [aux_and_shiftRight, Nat.and_assoc, e2]
  have hb : (c &&& 0x7FFF) &&& 0x1F = c &&& 0x1F := by
    rw [Nat.and_assoc, e3]
  simp only [convert555, hr, hg, hb]

theorem aux_xor_two_pow_of_lt {r : Nat} (h : r < 2 ^ 15) :
    r ^^^ 2 ^ 15 = 2 ^ 15 + r := by
  apply Nat.eq_of_testBit_eq
  intro j
  rcases lt_trichotomy j 15 with hj | hj | hj
  · rw [Nat.testBit_xor, Nat.testBit_two_pow_of_ne (by omega),
      Nat.testBit_two_pow_add_gt hj]
    simp
  · subst hj
    rw [Nat.testBit_xor, Nat.testBit_two_pow_self, Nat.testBit_two_pow_add_eq,
      Nat.testBit_lt_two_pow h]
    simp
  · have hrj : r.testBit j = false :=
      Nat.testBit_lt_two_pow
        (lt_trans h (Nat.pow_lt_pow_right Nat.one_lt_two hj))
    have hsum : (2 ^ 15 + r).testBit j = false := by
      apply Nat.testBit_lt_two_pow
      have h16 : (2 : Nat) ^ 16 ≤ 2 ^ j := Nat.pow_le_pow_right (by omega) (by omega)
      have : (2 : Nat) ^ 15 + r < 2 ^ 16 := by
        have : (2 : Nat) ^ 16 = 2 ^ 15 + 2 ^ 15 := by norm_num
        omega
      omega
    rw [Nat.testBit_xor, hrj, hsum, Nat.testBit_two_pow_of_ne (by omega)]
    simp

theorem aux_audioConvert_lt {u : Nat} (h : u < 32768) :
    audioConvert u = u + 32768 := by
  have h15 : (0x8000 : Nat) = 2 ^ 15 := by norm_num
  unfold audioConvert
  rw [h15, aux_xor_two_pow_of_lt (by omega)]
  omega

theorem aux_audioConvert_ge {u : Nat} (h1 : 32768 ≤ u) (h2 : u < 65536) :
    audioConvert u = u - 32768 := by
  have key : audioConvert (u - 32768) = u := by
    rw [aux_audioConvert_lt (by omega)]
    omega
  calc audioConvert u = audioConvert (audioConvert (u - 32768)) := by rw [key]
    _ = u - 32768 := Nat.xor_cancel_right _ _

/-- C4: pixel conversion is a total deterministic function on 16-bit
values extracting the three 5-bit channels, discarding the top bit,
widening green by MSB duplication; 0x0000 maps to 0x0000 and 0x7FFF to
0xFFFF; the buffer conversion produces one output word per requested
pixel, and `runFrame` requests the full 320x240 pixel count. -/
theorem C4_pixel_conversion :
    convert555 0 = 0 ∧ convert555 0x7FFF = 0xFFFF ∧
    (∀ c : Nat, convert555 (c &&& 0x7FFF) = convert555 c) ∧
    (∀ (src : List Nat) (n : Nat),
      (convertFramebufferRGB555toRGB565 src n).length = n) ∧
    (∀ (s : AndroidEmulator) (v : VSmile) (now : Int),
      s.paused = false → s.emulator = some v →
      (s.runFrame now).framebuffer =
        convertFramebufferRGB555toRGB565 v.RunFrame.GetPicture (320 * 240)) := by
  refine ⟨by decide, by decide, aux_convert555_mask, ?_, ?_⟩
  · intro src n
    simp [convertFramebufferRGB555toRGB565]
  · intro s v now hp he
    have hups : ∀ (s2 : AndroidEmulator) (t : Int),
        (s2.updateFPS t).framebuffer = s2.framebuffer := by
      intro s2 t
      by_cases h : 1000 ≤ t - s2.fpsUpdateTime <;>
        simp [AndroidEmulator.updateFPS, h]
    simp only [AndroidEmulator.runFrame, hp, he, Bool.false_eq_true,
      if_false, hups]

/-- C4 witness: a concrete effective `runFrame` call converts the full
320x240 picture. -/
theorem C4_pixel_conversion_witness :
    (aeRunEx.runFrame 0).framebuffer =
      convertFramebufferRGB555toRGB565 vEx.RunFrame.GetPicture (320 * 240) :=
  C4_pixel_conversion.2.2.2.2 aeRunEx vEx 0 rfl rfl

/-- C5: audio conversion maps each unsigned 16-bit sample u to
u XOR 0x8000 (numerically u - 32768 on the signed reinterpretation),
is an involution, sends 0x0000 to 0x8000 and 0xFFFF to 0x7FFF, and the
bridge applies it per-sample preserving count and order exactly. -/
theorem C5_audio_conversion :
    (∀ u : Nat, audioConvert (audioConvert u) = u) ∧
    audioConvert 0 = 0x8000 ∧ audioConvert 0xFFFF = 0x7FFF ∧
    (∀ u : Nat, u < 65536 → toInt16 (audioConvert u) = (u : Int) - 32768) ∧
    (∀ (s : JniState) (v : VSmile), s.gVsmile = some v →
      nativeGetAudioSamples s = some (v.GetAudio.map audioConvert) ∧
      (v.GetAudio.map audioConvert).length = v.GetAudio.length ∧
      ∀ i : Nat, (v.GetAudio.map audioConvert)[i]?
        = v.GetAudio[i]?.map audioConvert) := by
  refine ⟨fun u => Nat.xor_cancel_right _ _, by decide, by decide, ?_, ?_⟩
  · intro u hu
    by_cases h : u < 32768
    · rw [aux_audioConvert_lt h]
      unfold toInt16
      rw [if_neg (by omega)]
      omega
    · rw [aux_audioConvert_ge (by omega) hu]
      unfold toInt16
      rw [if_pos (by omega)]
      omega
  · intro s v hv
    refine ⟨by simp [nativeGetAudioSamples, hv], by simp, ?_⟩
    intro i
    simp [List.getElem?_map]

/-- C5 witness: a concrete sample and a concrete initialised bridge state. -/
theorem C5_audio_conversion_witness :
    toInt16 (audioConvert 0) = (0 : Int) - 32768 :=
  C5_audio_conversion.2.2.2.1 0 (by decide)

theorem aux_jniSysData_none : jniSysData none = some dummyBios := rfl

theorem aux_jniSysData_exact {b : List Nat} (hb : b.length = SYSROM_BYTES) :
    jniSysData (some b) =
      some fun i => if i < b.length then b.getD i 0 else 0 := by
  simp [jniSysData, hb]

theorem aux_jniSysData_wrong {b : List Nat} (hb : b.length ≠ SYSROM_BYTES) :
    jniSysData (some b) = none := by
  simp [jniSysData, hb]

/-- C1: `nativeInit` succeeds for every cartridge ROM whose size s
satisfies 0 < s <= MAX_CART_SIZE (with a valid system ROM argument and a
successful core construction); it fails for cartridge size 0 and for any
size exceeding MAX_CART_SIZE, returning false with the global state
unchanged; a null cartridge buffer and size 0 also fail
`AndroidEmulator::initialize` without state change. -/
theorem C1_initialize_cart_validation :
    (∀ (s : JniState) (sysrom : Option (List Nat)) (cartrom : List Nat)
        (usePAL : Bool) (oracle : CoreOracle),
      (sysrom = none ∨ ∃ b, sysrom = some b ∧ b.length = SYSROM_BYTES) →
      0 < cartrom.length → cartrom.length ≤ CART_BYTES →
      (nativeInit s sysrom cartrom usePAL oracle true).1 = true) ∧
    (∀ (s : JniState) (sysrom : Option (List Nat)) (cartrom : List Nat)
        (usePAL : Bool) (oracle : CoreOracle) (coreOk : Bool),
      cartrom.length = 0 →
      nativeInit s sysrom cartrom usePAL oracle coreOk = (false, s)) ∧
    (∀ (s : JniState) (sysrom : Option (List Nat)) (cartrom : List Nat)
        (usePAL : Bool) (oracle : CoreOracle) (coreOk : Bool),
      CART_BYTES < cartrom.length →
      nativeInit s sysrom cartrom usePAL oracle coreOk = (false, s)) ∧
    (∀ (ae : AndroidEmulator) (bios : Option (List Nat))
        (biosSize romSize : Nat) (t : VideoTiming) (oracle : CoreOracle)
        (coreOk : Bool),
      AndroidEmulator.initializeEmulator ae bios biosSize none romSize t oracle coreOk
        = (false, ae)) ∧
    (∀ (ae : AndroidEmulator) (bios : Option (List Nat)) (biosSize : Nat)
        (rom : List Nat) (t : VideoTiming) (oracle : CoreOracle)
        (coreOk : Bool),
      AndroidEmulator.initializeEmulator ae bios biosSize (some rom) 0 t oracle coreOk
        = (false, ae)) := by
  refine ⟨?_, ?_, ?_, ?_, ?_⟩
  · intro s sysrom cartrom usePAL oracle hsys h0 hle
    rcases hsys with h | ⟨b, hb, hlen⟩
    · subst h
      simp only [nativeInit, aux_jniSysData_none]
      rw [if_neg (by omega)]
      rfl
    · subst hb
      simp only [nativeInit, aux_jniSysData_exact hlen]
      rw [if_neg (by omega)]
      rfl
  · intro s sysrom cartrom usePAL oracle coreOk h
    cases hsd : jniSysData sysrom with
    | none => simp [nativeInit, hsd]
    | some f =>
      simp only [nativeInit, hsd]
      rw [if_pos (Or.inl h)]
  · intro s sysrom cartrom usePAL oracle coreOk h
    cases hsd : jniSysData sysrom with
    | none => simp [nativeInit, hsd]
    | some f =>
      simp only [nativeInit, hsd]
      rw [if_pos (Or.inr h)]
  · intro ae bios biosSize romSize t oracle coreOk
    rfl
  · intro ae bios biosSize rom t oracle coreOk
    simp [AndroidEmulator.initializeEmulator]

/-- C1 witness: a three-byte cartridge with no system ROM initialises
successfully; size 0 fails with no state change. -/
theorem C1_initialize_cart_validation_witness :
    (nativeInit jniEx none [1, 2, 3] false oracleEx true).1 = true ∧
    nativeInit jniEx none [] false oracleEx true = (false, jniEx) :=
  ⟨C1_initialize_cart_validation.1 jniEx none [1, 2, 3] false oracleEx
      (Or.inl rfl) (by decide) (by decide),
    C1_initialize_cart_validation.2.1 jniEx none [] false oracleEx true rfl⟩

/-- C2: for every supplied system ROM whose size differs from the fixed
expected size, `nativeInit` fails and returns the global state unchanged
(any previously initialised instance untouched). -/
theorem C2_sysrom_exact_match :
    ∀ (s : JniState) (b : List Nat) (cartrom : List Nat) (usePAL : Bool)
      (oracle : CoreOracle) (coreOk : Bool),
      b.length ≠ SYSROM_BYTES →
      nativeInit s (some b) cartrom usePAL oracle coreOk = (false, s) := by
  intro s b cartrom usePAL oracle coreOk hb
  simp [nativeInit, aux_jniSysData_wrong hb]

/-- C2 witness: a one-byte system ROM is rejected, also when a prior
instance exists, which stays in place. -/
theorem C2_sysrom_exact_match_witness :
    nativeInit jniVEx (some [0]) [1] false oracleEx true = (false, jniVEx) :=
  C2_sysrom_exact_match jniVEx [0] [1] false oracleEx true (by decide)

/-- C3: whenever `nativeInit` returns success it has replaced the global
instance with the newly constructed one (its cartridge data is this call's
padded cartridge) and has reset the external core, so the CPU is in the
defined power-on state; with no system ROM supplied the new instance
carries the dummy boot stub, whose bytes are 0x31 exactly at the odd
indices of the fixed offset range. -/
theorem C3_init_replaces_and_resets :
    (∀ (s : JniState) (sysrom : Option (List Nat)) (cartrom : List Nat)
        (usePAL : Bool) (oracle : CoreOracle) (coreOk : Bool),
      (nativeInit s sysrom cartrom usePAL oracle coreOk).1 = true →
      ∃ inst : VSmile,
        (nativeInit s sysrom cartrom usePAL oracle coreOk).2.gVsmile
          = some inst ∧
        inst.powerOnReset = true ∧
        inst.cartRom = jniCartData cartrom ∧
        (sysrom = none → inst.sysRom = some dummyBios)) ∧
    dummyBios 0xfffc1 = 0x31 ∧ dummyBios 0xfffdb = 0x31 ∧
    dummyBios 0xfffc0 = 0 ∧ dummyBios 0xfffdc = 0 ∧ dummyBios 0xfffbf = 0 := by
  refine ⟨?_, by decide, by decide, by decide, by decide, by decide⟩
  intro s sysrom cartrom usePAL oracle coreOk htrue
  cases hsd : jniSysData sysrom with
  | none => simp [nativeInit, hsd] at htrue
  | some f =>
    by_cases hc : cartrom.length = 0 ∨ CART_BYTES < cartrom.length
    · have heq : nativeInit s sysrom cartrom usePAL oracle coreOk
          = (false, s) := by
        simp only [nativeInit, hsd]
        rw [if_pos hc]
      rw [heq] at htrue
      exact absurd htrue (by simp)
    · cases coreOk with
      | false =>
        have heq : nativeInit s sysrom cartrom usePAL oracle false
            = (false, s) := by
          simp only [nativeInit, hsd]
          rw [if_neg hc]
          simp
        rw [heq] at htrue
        exact absurd htrue (by simp)
      | true =>
        have heq : nativeInit s sysrom cartrom usePAL oracle true
            = (true, { s with gVsmile := some (VSmile.construct (some f)
                (jniCartData cartrom) CartType.STANDARD none 0xe true
                (if usePAL then VideoTiming.PAL else VideoTiming.NTSC)
                oracle).Reset }) := by
          simp only [nativeInit, hsd]
          rw [if_neg hc]
          simp
        rw [heq]
        refine ⟨_, rfl, rfl, rfl, ?_⟩
        intro hnone
        subst hnone
        rw [aux_jniSysData_none] at hsd
        cases hsd
        rfl

/-- C3 witness: a concrete successful call installs a reset instance with
the dummy boot stub. -/
theorem C3_init_replaces_and_resets_witness :
    ∃ inst : VSmile,
      (nativeInit jniEx none [1] false oracleEx true).2.gVsmile = some inst ∧
      inst.powerOnReset = true ∧
      inst.cartRom = jniCartData [1] ∧
      (none = (none : Option (List Nat)) → inst.sysRom = some dummyBios) :=
  C3_init_replaces_and_resets.1 jniEx none [1] false oracleEx true rfl

theorem aux_runFrame_paused {s : AndroidEmulator} (h : s.paused = true)
    (now : Int) : s.runFrame now = s := by
  simp [AndroidEmulator.runFrame, h]

/-- C6: `runFrame` is a no-op when paused or when no core instance exists;
after `pause()` any number of `runFrame` calls leaves the whole state,
hence the framebuffer, the audio buffer and the FPS counter state, exactly
at its pre-pause values, and the core is not stepped. -/
theorem C6_runFrame_noop_when_paused :
    (∀ (s : AndroidEmulator) (now : Int), s.paused = true →
      s.runFrame now = s) ∧
    (∀ (s : AndroidEmulator) (now : Int), s.emulator = none →
      s.runFrame now = s) ∧
    (∀ (s : AndroidEmulator) (ts : List Int),
      List.foldl AndroidEmulator.runFrame s.pause ts = s.pause) ∧
    (∀ s : AndroidEmulator,
      s.pause.framebuffer = s.framebuffer ∧
      s.pause.audioBuffer = s.audioBuffer ∧
      s.pause.currentFPS = s.currentFPS ∧
      s.pause.frameCount = s.frameCount ∧
      s.pause.fpsUpdateTime = s.fpsUpdateTime ∧
      s.pause.emulator = s.emulator) := by
  refine ⟨fun s now h => aux_runFrame_paused h now, ?_, ?_, ?_⟩
  · intro s now h
    by_cases hp : s.paused
    · exact aux_runFrame_paused hp now
    · simp [AndroidEmulator.runFrame, hp, h]
  · intro s ts
    induction ts with
    | nil => rfl
    | cons t ts ih =>
      rw [List.foldl_cons, aux_runFrame_paused rfl t]
      exact ih
  · intro s
    exact ⟨rfl, rfl, rfl, rfl, rfl, rfl⟩

/-- C6 witness: a paused concrete state absorbs two `runFrame` calls. -/
theorem C6_runFrame_noop_when_paused_witness :
    aeEx.pause.runFrame 0 = aeEx.pause :=
  C6_runFrame_noop_when_paused.1 aeEx.pause 0 rfl

/-- C7: when no emulator instance exists, every operation other than init
is a safe no-op or returns null: `nativeRunFrame` leaves the state
unchanged, the framebuffer and audio getters return null,
`nativeSendInput` and `nativePressOnButton` change nothing, and
`AndroidEmulator::reset` and `updateInput` do nothing. -/
theorem C7_missing_instance_noop :
    ∀ s : JniState, s.gVsmile = none →
      nativeRunFrame s = s ∧
      nativeGetFrameBuffer s = none ∧
      nativeGetAudioSamples s = none ∧
      (∀ j : JoyInput, nativeSendInput s j = s) ∧
      (∀ b : Bool, nativePressOnButton s b = s) ∧
      (∀ ae : AndroidEmulator, ae.emulator = none →
        ae.reset = ae ∧ ∀ i : ControllerInput, ae.updateInput i = ae) := by
  intro s h
  refine ⟨?_, ?_, ?_, ?_, ?_, ?_⟩
  · simp [nativeRunFrame, h]
  · simp [nativeGetFrameBuffer, h]
  · simp [nativeGetAudioSamples, h]
  · intro j
    simp [nativeSendInput, h]
  · intro b
    simp [nativePressOnButton, h]
  · intro ae hae
    exact ⟨by simp [AndroidEmulator.reset, hae],
      fun i => by simp [AndroidEmulator.updateInput, hae]⟩

/-- C7 witness: the uninitialised concrete state. -/
theorem C7_missing_instance_noop_witness :
    nativeRunFrame jniEx = jniEx ∧
    nativeGetFrameBuffer jniEx = none ∧
    nativeGetAudioSamples jniEx = none :=
  ⟨(C7_missing_instance_noop jniEx rfl).1,
    (C7_missing_instance_noop jniEx rfl).2.1,
    (C7_missing_instance_noop jniEx rfl).2.2.1⟩

theorem aux_updateFPS_lt {s : AndroidEmulator} {now : Int}
    (h : now - s.fpsUpdateTime < 1000) :
    s.updateFPS now = { s with frameCount := s.frameCount + 1 } := by
  simp only [AndroidEmulator.updateFPS]
  rw [if_neg (by omega)]

theorem aux_updateFPS_ge {s : AndroidEmulator} {now : Int}
    (h : 1000 ≤ now - s.fpsUpdateTime) :
    s.updateFPS now = { s with
      currentFPS :=
        ((s.frameCount + 1 : Nat) : ℚ) * 1000
          / ((now - s.fpsUpdateTime : Int) : ℚ),
      frameCount := 0, fpsUpdateTime := now } := by
  simp only [AndroidEmulator.updateFPS]
  rw [if_pos h]

theorem aux_foldl_updateFPS (ts : List Int) :
    ∀ s : AndroidEmulator, (∀ t ∈ ts, t - s.fpsUpdateTime < 1000) →
      (List.foldl AndroidEmulator.updateFPS s ts).currentFPS = s.currentFPS ∧
      (List.foldl AndroidEmulator.updateFPS s ts).fpsUpdateTime
        = s.fpsUpdateTime := by
  induction ts with
  | nil => exact fun s _ => ⟨rfl, rfl⟩
  | cons t ts ih =>
    intro s h
    rw [List.foldl_cons, aux_updateFPS_lt (h t (by simp))]
    have := ih { s with frameCount := s.frameCount + 1 }
      (fun u hu => by simpa using h u (List.mem_cons_of_mem _ hu))
    simpa using this

/-- C8: the FPS value starts at 0, stays non-negative, and is recomputed
only when at least 1000 ms have elapsed since the last recomputation, at
which point `fps = frameCount * 1000 / elapsed` (counting the current
call) and the counter and timestamp are reset; between recomputations
`getFPS` returns the previous value unchanged, however many calls occur. -/
theorem C8_fps_policy :
    (∀ (s : AndroidEmulator) (now : Int), now - s.fpsUpdateTime < 1000 →
      s.updateFPS now = { s with frameCount := s.frameCount + 1 } ∧
      (s.updateFPS now).getFPS = s.getFPS) ∧
    (∀ (s : AndroidEmulator) (now : Int), 1000 ≤ now - s.fpsUpdateTime →
      (s.updateFPS now).currentFPS
        = ((s.frameCount + 1 : Nat) : ℚ) * 1000
          / ((now - s.fpsUpdateTime : Int) : ℚ) ∧
      (s.updateFPS now).frameCount = 0 ∧
      (s.updateFPS now).fpsUpdateTime = now) ∧
    (∀ (s : AndroidEmulator) (now : Int),
      0 ≤ s.currentFPS → 0 ≤ (s.updateFPS now).currentFPS) ∧
    (∀ now : Int, (AndroidEmulator.construct now).currentFPS = 0) ∧
    (∀ (s : AndroidEmulator) (ts : List Int),
      (∀ t ∈ ts, t - s.fpsUpdateTime < 1000) →
      (List.foldl AndroidEmulator.updateFPS s ts).getFPS = s.getFPS) := by
  refine ⟨?_, ?_, ?_, fun now => rfl, ?_⟩
  · intro s now h
    exact ⟨aux_updateFPS_lt h, by rw [aux_updateFPS_lt h]; rfl⟩
  · intro s now h
    rw [aux_updateFPS_ge h]
    exact ⟨rfl, rfl, rfl⟩
  · intro s now h
    by_cases hc : 1000 ≤ now - s.fpsUpdateTime
    · rw [aux_updateFPS_ge hc]
      apply div_nonneg
      · positivity
      · have h0 : (0 : Int) ≤ now - s.fpsUpdateTime := by omega
        exact_mod_cast h0
    · rw [aux_updateFPS_lt (by omega)]
      exact h
  · intro s ts h
    exact (aux_foldl_updateFPS ts s h).1

/-- C8 witness: a fresh state, a call 1 ms later (no recomputation) and a
call 1000 ms later (recomputation at 1 frame per second). -/
theorem C8_fps_policy_witness :
    (aeEx.updateFPS 1 = { aeEx with frameCount := aeEx.frameCount + 1 } ∧
      (aeEx.updateFPS 1).getFPS = aeEx.getFPS) ∧
    0 ≤ (aeEx.updateFPS 1000).currentFPS :=
  ⟨C8_fps_policy.1 aeEx 1 (by decide),
    C8_fps_policy.2.2.1 aeEx 1000 (by decide)⟩

/-- C9: `nativeDestroy` is idempotent, safe before any successful
initialisation, and always leaves the system uninitialised (the only
other global, the static frame counter, is untouched). -/
theorem C9_destroy_idempotent :
    ∀ s : JniState,
      nativeDestroy (nativeDestroy s) = nativeDestroy s ∧
      (nativeDestroy s).gVsmile = none ∧
      (nativeDestroy s).frameCounter = s.frameCounter := by
  intro s
  exact ⟨rfl, rfl, rfl⟩

theorem aux_initialize_keeps (s : AndroidEmulator) (b : Option (List Nat))
    (bs : Nat) (r : Option (List Nat)) (rs : Nat) (t : VideoTiming)
    (o : CoreOracle) (ok : Bool) :
    (AndroidEmulator.initializeEmulator s b bs r rs t o ok).2.framebuffer
        = s.framebuffer ∧
    (AndroidEmulator.initializeEmulator s b bs r rs t o ok).2.audioBuffer
        = s.audioBuffer := by
  cases r with
  | none => exact ⟨rfl, rfl⟩
  | some rom =>
    by_cases h : rs = 0 <;> cases ok <;>
      simp [AndroidEmulator.initializeEmulator, h]

theorem aux_updateFPS_keeps (s : AndroidEmulator) (now : Int) :
    (s.updateFPS now).framebuffer = s.framebuffer ∧
    (s.updateFPS now).audioBuffer = s.audioBuffer ∧
    (s.updateFPS now).emulator = s.emulator := by
  by_cases h : 1000 ≤ now - s.fpsUpdateTime <;>
    simp [AndroidEmulator.updateFPS, h]

theorem aux_runFrame_active {s : AndroidEmulator} {v : VSmile}
    (hp : s.paused = false) (he : s.emulator = some v) (now : Int) :
    s.runFrame now = AndroidEmulator.updateFPS
      { s with
        emulator := some v.RunFrame,
        framebuffer :=
          convertFramebufferRGB555toRGB565 v.RunFrame.GetPicture (320 * 240),
        audioBuffer := v.RunFrame.GetAudio } now := by
  simp [AndroidEmulator.runFrame, hp, he]

theorem aux_AEstep_fb_length (s : AndroidEmulator) (op : AEOp)
    (h : s.framebuffer.length = 320 * 240) :
    (AEstep s op).framebuffer.length = 320 * 240 := by
  cases op with
  | init b bs r rs t o ok =>
    have hk := (aux_initialize_keeps s b bs r rs t o ok).1
    simpa [AEstep, hk] using h
  | run now =>
    cases hps : s.paused with
    | true =>
      simp only [AEstep]
      rw [aux_runFrame_paused hps]
      exact h
    | false =>
      cases he : s.emulator with
      | none =>
        simp only [AEstep]
        simp [AndroidEmulator.runFrame, hps, he, h]
      | some v =>
        simp only [AEstep]
        rw [aux_runFrame_active hps he,
          (aux_updateFPS_keeps _ now).1]
        simp [convertFramebufferRGB555toRGB565]
  | input i => cases he : s.emulator <;>
      simp [AEstep, AndroidEmulator.updateInput, he, h]
  | pauseOp => simpa [AEstep, AndroidEmulator.pause] using h
  | resumeOp => simpa [AEstep, AndroidEmulator.resume] using h
  | resetOp => cases he : s.emulator <;>
      simp [AEstep, AndroidEmulator.reset, he, h]

theorem aux_foldl_fb_length (ops : List AEOp) :
    ∀ s : AndroidEmulator, s.framebuffer.length = 320 * 240 →
      (List.foldl AEstep s ops).framebuffer.length = 320 * 240 := by
  induction ops with
  | nil => exact fun s h => h
  | cons op ops ih =>
    intro s h
    rw [List.foldl_cons]
    exact ih _ (aux_AEstep_fb_length s op h)

theorem aux_AEstep_uninit (s : AndroidEmulator) (op : AEOp)
    (hop : op.isInit = false)
    (hfb : s.framebuffer = List.replicate (320 * 240) 0)
    (hab : s.audioBuffer = []) (he : s.emulator = none) :
    (AEstep s op).framebuffer = List.replicate (320 * 240) 0 ∧
    (AEstep s op).audioBuffer = [] ∧
    (AEstep s op).emulator = none := by
  cases op with
  | init b bs r rs t o ok => simp [AEOp.isInit] at hop
  | run now =>
    cases hps : s.paused with
    | true =>
      simp only [AEstep]
      rw [aux_runFrame_paused hps]
      exact ⟨hfb, hab, he⟩
    | false =>
      simp only [AEstep]
      have : s.runFrame now = s := by
        simp [AndroidEmulator.runFrame, hps, he]
      rw [this]
      exact ⟨hfb, hab, he⟩
  | input i =>
    simp only [AEstep, AndroidEmulator.updateInput, he]
    exact ⟨hfb, hab, trivial⟩
  | pauseOp => exact ⟨hfb, hab, he⟩
  | resumeOp => exact ⟨hfb, hab, he⟩
  | resetOp =>
    simp only [AEstep, AndroidEmulator.reset, he]
    exact ⟨hfb, hab, trivial⟩

theorem aux_foldl_uninit (ops : List AEOp) :
    ∀ s : AndroidEmulator, (∀ op ∈ ops, op.isInit = false) →
      s.framebuffer = List.replicate (320 * 240) 0 →
      s.audioBuffer = [] → s.emulator = none →
      (List.foldl AEstep s ops).framebuffer = List.replicate (320 * 240) 0 ∧
      (List.foldl AEstep s ops).audioBuffer = [] := by
  induction ops with
  | nil => exact fun s _ hfb hab _ => ⟨hfb, hab⟩
  | cons op ops ih =>
    intro s hops hfb hab he
    rw [List.foldl_cons]
    have hstep := aux_AEstep_uninit s op (hops op (by simp)) hfb hab he
    exact ih _ (fun u hu => hops u (List.mem_cons_of_mem _ hu))
      hstep.1 hstep.2.1 hstep.2.2

theorem aux_AEstep_norun (s : AndroidEmulator) (op : AEOp)
    (hop : op.isRun = false)
    (hfb : s.framebuffer = List.replicate (320 * 240) 0)
    (hab : s.audioBuffer = []) :
    (AEstep s op).framebuffer = List.replicate (320 * 240) 0 ∧
    (AEstep s op).audioBuffer = [] := by
  cases op with
  | init b bs r rs t o ok =>
    have hk := aux_initialize_keeps s b bs r rs t o ok
    simp only [AEstep]
    rw [hk.1, hk.2]
    exact ⟨hfb, hab⟩
  | run now => simp [AEOp.isRun] at hop
  | input i =>
    cases he : s.emulator <;>
      · simp only [AEstep, AndroidEmulator.updateInput, he]
        exact ⟨hfb, hab⟩
  | pauseOp => exact ⟨hfb, hab⟩
  | resumeOp => exact ⟨hfb, hab⟩
  | resetOp =>
    cases he : s.emulator <;>
      · simp only [AEstep, AndroidEmulator.reset, he]
        exact ⟨hfb, hab⟩

theorem aux_foldl_norun (ops : List AEOp) :
    ∀ s : AndroidEmulator, (∀ op ∈ ops, op.isRun = false) →
      s.framebuffer = List.replicate (320 * 240) 0 →
      s.audioBuffer = [] →
      (List.foldl AEstep s ops).framebuffer = List.replicate (320 * 240) 0 ∧
      (List.foldl AEstep s ops).audioBuffer = [] := by
  induction ops with
  | nil => exact fun s _ hfb hab => ⟨hfb, hab⟩
  | cons op ops ih =>
    intro s hops hfb hab
    rw [List.foldl_cons]
    have hstep := aux_AEstep_norun s op (hops op (by simp)) hfb hab
    exact ih _ (fun u hu => hops u (List.mem_cons_of_mem _ hu))
      hstep.1 hstep.2

/-- C10: for every sequence of operations on a freshly constructed
`AndroidEmulator`, the framebuffer is exactly 320x240x2 = 153600 bytes,
allocated zero-filled at construction and never resized; before the first
`initialize` or before the first `runFrame`, `getFramebuffer` returns an
all-zero buffer and `getAudioSampleCount` returns 0. -/
theorem C10_framebuffer_invariant :
    (∀ now : Int,
      AndroidEmulator.getFramebuffer (AndroidEmulator.construct now)
        = List.replicate (320 * 240) 0 ∧
      AndroidEmulator.getFramebufferSize (AndroidEmulator.construct now)
        = 153600 ∧
      AndroidEmulator.getAudioSampleCount (AndroidEmulator.construct now)
        = 0) ∧
    (∀ (now : Int) (ops : List AEOp),
      AndroidEmulator.getFramebufferSize
        (List.foldl AEstep (AndroidEmulator.construct now) ops) = 153600) ∧
    (∀ (now : Int) (ops : List AEOp), (∀ op ∈ ops, op.isInit = false) →
      AndroidEmulator.getFramebuffer
          (List.foldl AEstep (AndroidEmulator.construct now) ops)
        = List.replicate (320 * 240) 0 ∧
      AndroidEmulator.getAudioSampleCount
          (List.foldl AEstep (AndroidEmulator.construct now) ops) = 0) ∧
    (∀ (now : Int) (ops : List AEOp), (∀ op ∈ ops, op.isRun = false) →
      AndroidEmulator.getFramebuffer
          (List.foldl AEstep (AndroidEmulator.construct now) ops)
        = List.replicate (320 * 240) 0 ∧
      AndroidEmulator.getAudioSampleCount
          (List.foldl AEstep (AndroidEmulator.construct now) ops) = 0) := by
  refine ⟨fun now => ⟨rfl, ?_, rfl⟩, ?_, ?_, ?_⟩
  · show 2 * (List.replicate (320 * 240) (0 : Nat)).length = 153600
    rw [List.length_replicate]
  · intro now ops
    have hlen := aux_foldl_fb_length ops (AndroidEmulator.construct now)
      (by show (List.replicate (320 * 240) (0 : Nat)).length = 320 * 240
          exact List.length_replicate _ _)
    show 2 * (List.foldl AEstep (AndroidEmulator.construct now) ops).framebuffer.length = 153600
    rw [hlen]
  · intro now ops hops
    have hinv := aux_foldl_uninit ops (AndroidEmulator.construct now) hops
      rfl rfl rfl
    refine ⟨hinv.1, ?_⟩
    show (List.foldl AEstep (AndroidEmulator.construct now) ops).audioBuffer.length = 0
    rw [hinv.2]
    rfl
  · intro now ops hops
    have hinv := aux_foldl_norun ops (AndroidEmulator.construct now) hops
      rfl rfl
    refine ⟨hinv.1, ?_⟩
    show (List.foldl AEstep (AndroidEmulator.construct now) ops).audioBuffer.length = 0
    rw [hinv.2]
    rfl

/-- C10 witness: a concrete sequence of pause, resume and an ineffective
(uninitialised) runFrame keeps the zero framebuffer, the empty audio
buffer and the 153600-byte size. -/
theorem C10_framebuffer_invariant_witness :
    AndroidEmulator.getFramebuffer
        (List.foldl AEstep (AndroidEmulator.construct 0)
          [AEOp.pauseOp, AEOp.run 16, AEOp.resumeOp])
      = List.replicate (320 * 240) 0 ∧
    AndroidEmulator.getAudioSampleCount
        (List.foldl AEstep (AndroidEmulator.construct 0)
          [AEOp.pauseOp, AEOp.run 16, AEOp.resumeOp])
      = 0 :=
  C10_framebuffer_invariant.2.2.1 0 [AEOp.pauseOp, AEOp.run 16, AEOp.resumeOp]
    (by intro op hop
        fin_cases hop <;> rfl)

end VSmileEmu
